import Mathlib

/-!
Verification of the scholargy-frontend authentication/session/routing layer.

This file gives a shallow embedding, in Lean 4, of the parts of the
repository that the specification talks about:

* the route gate (`Main` in `src/App.js`),
* the profile-completeness predicates (`src/contexts/AuthContext.js` and
  `calculateProfileCompleteness` in the dashboard page),
* the API client (`getAuthHeaders` / `makeRequest` and the per-endpoint
  wrappers in `src/services/api.js` and in the consolidated dashboard
  variant of the same file),
* the OAuth callback handlers (the fragment-parsing and the
  query-parsing versions of `AuthCallback`),
* the supabase module initialisation (the throwing version in
  `src/utils/supabase.js` and the mock-client version),
* the session-store operation wrappers of `AuthProvider`,
* the dashboard fan-out loader `loadDashboardData`.

JavaScript values that matter only through truthiness, string conversion
and comparison with the placeholder string are modelled by `JsValue`;
asynchronous calls become explicit outcome parameters (`NetOutcome`,
`Except`); a thrown JavaScript error becomes `Except.error`.
-/

/-- A JavaScript runtime value, as far as the gated predicates observe it:
`null`, `undefined`, booleans, (integer) numbers and strings.  Truthiness
and string conversion follow JavaScript semantics. -/
inductive JsValue where
  | vUndefined : JsValue
  | vNull : JsValue
  | vBool : Bool → JsValue
  | vNum : Int → JsValue
  | vStr : String → JsValue
deriving DecidableEq

/-- JavaScript truthiness: `undefined`, `null`, `false`, `0` and the empty
string are falsy, everything else is truthy. -/
def JsValue.truthy : JsValue → Bool
  | JsValue.vUndefined => false
  | JsValue.vNull => false
  | JsValue.vBool b => b
  | JsValue.vNum n => n != 0
  | JsValue.vStr s => s != ""

/-- JavaScript `value.toString()` for the values of `JsValue`. -/
def JsValue.toStr : JsValue → String
  | JsValue.vUndefined => "undefined"
  | JsValue.vNull => "null"
  | JsValue.vBool b => if b then "true" else "false"
  | JsValue.vNum n => toString n
  | JsValue.vStr s => s

/-- Does `hay` start with `needle` (on character lists)? -/
def subAt : List Char → List Char → Bool
  | [], _ => true
  | _ :: _, [] => false
  | a :: as, b :: bs => a == b && subAt as bs

/-- Does the second list contain the first as a contiguous run? -/
def hasSub (needle : List Char) : List Char → Bool
  | [] => subAt needle []
  | b :: bs => subAt needle (b :: bs) || hasSub needle bs

/-- JavaScript `hay.includes(needle)` on strings. -/
def strContains (hay needle : String) : Bool :=
  hasSub needle.toList hay.toList

/-- The backend profile record (`Profile` in the spec).  All fields are
JavaScript values; a field the backend never sent is `vUndefined`.  The
field names follow `src/pages/DashboardPage.js` (`requiredFields`) and the
`newProfileData` object of `src/contexts/AuthContext.js`. -/
structure Profile where
  gpa : JsValue := JsValue.vUndefined
  satScore : JsValue := JsValue.vUndefined
  gradeLevel : JsValue := JsValue.vUndefined
  extracurriculars : JsValue := JsValue.vUndefined
  career_goals : JsValue := JsValue.vUndefined
  email : JsValue := JsValue.vUndefined
  fullName : JsValue := JsValue.vUndefined
  avatarUrl : JsValue := JsValue.vUndefined
  provider : JsValue := JsValue.vUndefined
  major : JsValue := JsValue.vUndefined
  graduationYear : JsValue := JsValue.vUndefined
deriving DecidableEq

/-- The identity-provider user object, as read by the components here. -/
structure User where
  id : String
  email : String
  fullName : String
  avatarUrl : String
  provider : String
deriving DecidableEq

/-- Route gate states of `Main` in `src/App.js`: the transient loading
screen, then one of the three page sets. -/
inductive RouteState where
  | Loading : RouteState
  | Unauthenticated : RouteState
  | AuthenticatedIncomplete : RouteState
  | AuthenticatedComplete : RouteState
deriving DecidableEq

/-- The page components routed by `Main` in `src/App.js`. -/
inductive View where
  | LoginView : View
  | AuthCallbackView : View
  | ResetPasswordView : View
  | DashboardView : View
  | StudentProfileView : View
  | ScholarshipView : View
  | MatchingView : View
  | CareerForecasterView : View
  | CompareCollegesView : View
  | StudentVueView : View
  | ReportView : View
  | CollegeProfileView : View
deriving DecidableEq

/-- `Main` in `src/App.js`: `if (loading) ...; if (!user) ...;
if (!isProfileComplete) ...; else full page set`. -/
def routeGateState (loading : Bool) (user : Option User) (complete : Bool) :
    RouteState :=
  if loading then RouteState.Loading
  else
    match user with
    | none => RouteState.Unauthenticated
    | some _ =>
        if complete then RouteState.AuthenticatedComplete
        else RouteState.AuthenticatedIncomplete

/-- The `<Route>` elements each state of `Main` renders (the catch-all
`Navigate` redirects are to views already in the list). -/
def reachableViews : RouteState → List View
  | RouteState.Loading => []
  | RouteState.Unauthenticated =>
      [View.AuthCallbackView, View.LoginView, View.ResetPasswordView]
  | RouteState.AuthenticatedIncomplete => [View.StudentProfileView]
  | RouteState.AuthenticatedComplete =>
      [View.DashboardView, View.StudentProfileView, View.ScholarshipView,
       View.MatchingView, View.CareerForecasterView, View.CompareCollegesView,
       View.StudentVueView, View.ReportView, View.CollegeProfileView]

/-- A view that must only be reachable with a session: everything except
the login, callback and reset-password pages. -/
def authOnlyView (v : View) : Bool :=
  match v with
  | View.LoginView => false
  | View.AuthCallbackView => false
  | View.ResetPasswordView => false
  | _ => true

/-- A view of the full (post-profile) page set, i.e. one that `Main`
renders only in the `AuthenticatedComplete` branch. -/
def postProfileView (v : View) : Bool :=
  match v with
  | View.DashboardView => true
  | View.ScholarshipView => true
  | View.MatchingView => true
  | View.CareerForecasterView => true
  | View.CompareCollegesView => true
  | View.StudentVueView => true
  | View.ReportView => true
  | View.CollegeProfileView => true
  | _ => false

/-- C1: the route gate of `src/App.js` never renders an
authenticated-only view when the session is null, never renders a
post-profile view unless the completeness flag is true, reaches
`AuthenticatedComplete` only with a session and a complete profile, and,
once the loading flag has cleared, is in `Unauthenticated` exactly when
the session is null. -/
theorem routeGate_session_invariants (loading : Bool) (user : Option User)
    (complete : Bool) :
    (user = none → ∀ v : View,
      v ∈ reachableViews (routeGateState loading user complete) →
        authOnlyView v = false)
    ∧ (complete = false → ∀ v : View,
      v ∈ reachableViews (routeGateState loading user complete) →
        postProfileView v = false)
    ∧ (routeGateState loading user complete = RouteState.AuthenticatedComplete →
        user ≠ none ∧ complete = true)
    ∧ (routeGateState false user complete = RouteState.Unauthenticated ↔
        user = none) := by
  cases loading <;> cases user <;> cases complete <;>
    simp [routeGateState, reachableViews] <;> decide

/-- Witness for `routeGate_session_invariants` at concrete inputs, one
per hypothesis of the statement. -/
theorem routeGate_session_invariants_witness :
    authOnlyView View.LoginView = false
    ∧ postProfileView View.StudentProfileView = false
    ∧ (some { id := "u1", email := "u@example.com", fullName := "U",
              avatarUrl := "", provider := "google" } ≠ (none : Option User))
    ∧ routeGateState false none false = RouteState.Unauthenticated :=
  ⟨(routeGate_session_invariants false none false).1 rfl View.LoginView
      (by decide),
   (routeGate_session_invariants false
      (some { id := "u1", email := "u@example.com", fullName := "U",
              avatarUrl := "", provider := "google" }) false).2.1 rfl
      View.StudentProfileView (by decide),
   ((routeGate_session_invariants false
      (some { id := "u1", email := "u@example.com", fullName := "U",
              avatarUrl := "", provider := "google" }) true).2.2.1 rfl).1,
   (routeGate_session_invariants false none false).2.2.2.mpr rfl⟩

/-- The required-field list of `calculateProfileCompleteness` in
`src/pages/DashboardPage.js`: `['gpa', 'satScore', 'gradeLevel',
'extracurriculars', 'career_goals']`. -/
def requiredFieldValues (p : Profile) : List JsValue :=
  [p.gpa, p.satScore, p.gradeLevel, p.extracurriculars, p.career_goals]

/-- JavaScript `s.trim()`: drop whitespace from both ends. -/
def jsTrim (s : String) : String :=
  String.mk
    (((s.toList.dropWhile Char.isWhitespace).reverse.dropWhile
        Char.isWhitespace).reverse)

/-- The per-field test of `calculateProfileCompleteness`:
`value && value.toString().trim() !== '' && value !== 'N/A'`. -/
def fieldCompleted (v : JsValue) : Bool :=
  v.truthy && (jsTrim v.toStr != "") && (v != JsValue.vStr "N/A")

/-- `calculateProfileCompleteness` of `src/pages/DashboardPage.js`:
the rounded percentage of completed required fields.  With five required
fields `Math.round((n / 5) * 100)` is exactly `n * 100 / 5`, so natural
division is exact here. -/
def calculateProfileCompleteness (profile : Option Profile) : Nat :=
  match profile with
  | none => 0
  | some p => ((requiredFieldValues p).filter fieldCompleted).length * 100 / 5

/-- The navigation-gating completeness flag of
`src/contexts/AuthContext.js`: `setIsProfileComplete(!!userProfile?.gpa)`. -/
def isProfileCompleteGate (profile : Option Profile) : Bool :=
  match profile with
  | none => false
  | some p => p.gpa.truthy

/-- Modelled from the spec words, for comparison with the code: the
completeness predicate is true iff every required field is present,
non-empty and not the placeholder sentinel. -/
def specCompleteness (p : Profile) : Bool :=
  (requiredFieldValues p).all fieldCompleted

/-- A profile whose every required field is the placeholder string. -/
def profileAllNA : Profile :=
  { gpa := JsValue.vStr "N/A", satScore := JsValue.vStr "N/A",
    gradeLevel := JsValue.vStr "N/A", extracurriculars := JsValue.vStr "N/A",
    career_goals := JsValue.vStr "N/A" }

/-- C3 counterexample: on a profile whose gpa is the placeholder string
`N/A` the navigation-gating predicate of `src/contexts/AuthContext.js`
returns true, although the required fields are all placeholder sentinels
(the dashboard file itself counts such a field as not completed), so the
gating predicate is not the predicate the claim describes. -/
theorem completeness_sentinel_cex :
    isProfileCompleteGate (some profileAllNA) = true
    ∧ specCompleteness profileAllNA = false
    ∧ fieldCompleted profileAllNA.gpa = false
    ∧ ¬(isProfileCompleteGate (some profileAllNA) = true ↔
        specCompleteness profileAllNA = true) := by
  decide

/-- C3 amended: the navigation-gating predicate is true iff the profile
is present and its `gpa` field is truthy; it performs no placeholder
check.  The dashboard percentage reaches 100 iff every required field is
present, non-empty after trimming and not the `N/A` sentinel.  Both are
pure functions of the profile, so re-evaluation on an unchanged profile
yields the same value. -/
theorem completeness_characterization (p q : Profile) :
    (isProfileCompleteGate (some p) = true ↔ p.gpa.truthy = true)
    ∧ isProfileCompleteGate none = false
    ∧ (calculateProfileCompleteness (some p) = 100 ↔
        specCompleteness p = true)
    ∧ (p = q → isProfileCompleteGate (some p) = isProfileCompleteGate (some q)) := by
  refine ⟨Iff.rfl, rfl, ?_, fun h => by rw [h]⟩
  cases h1 : fieldCompleted p.gpa <;>
    cases h2 : fieldCompleted p.satScore <;>
      cases h3 : fieldCompleted p.gradeLevel <;>
        cases h4 : fieldCompleted p.extracurriculars <;>
          cases h5 : fieldCompleted p.career_goals <;>
            simp only [calculateProfileCompleteness, requiredFieldValues,
              specCompleteness, List.filter_cons, List.filter_nil,
              List.all_cons, List.all_nil, h1, h2, h3, h4, h5, if_true,
              if_false, List.length_cons, List.length_nil, Bool.true_and,
              Bool.and_true, Bool.false_and, Bool.and_false] <;>
            norm_num

/-- Witness for `completeness_characterization` at a concrete profile,
with the determinism hypothesis discharged. -/
theorem completeness_characterization_witness :
    (calculateProfileCompleteness
        (some { profileAllNA with gpa := JsValue.vStr "3.7" }) = 100 ↔
      specCompleteness { profileAllNA with gpa := JsValue.vStr "3.7" } = true)
    ∧ isProfileCompleteGate (some profileAllNA) =
        isProfileCompleteGate (some profileAllNA) :=
  ⟨(completeness_characterization
      { profileAllNA with gpa := JsValue.vStr "3.7" } profileAllNA).2.2.1,
   (completeness_characterization profileAllNA profileAllNA).2.2.2 rfl⟩

/-- A thrown JavaScript `Error`, observed through its message. -/
structure ApiError where
  msg : String
deriving DecidableEq

/-- The identity-provider session, as read by the API client:
`session?.access_token`. -/
structure Session where
  access_token : Option String
deriving DecidableEq

/-- The outcome of one `fetch` round trip: the promise rejects with a
message, or the server answers non-2xx (with an optional `errorData.error`
body field), or the server answers 2xx with a parsed JSON body `v`. -/
inductive NetOutcome (A : Type) where
  | netError : String → NetOutcome A
  | httpError : Nat → Option String → NetOutcome A
  | success : A → NetOutcome A
deriving DecidableEq

/-- `session?.access_token` over the current session (null session gives
no token). -/
def sessionToken (session : Option Session) : Option String :=
  match session with
  | none => none
  | some s => s.access_token

/-- `getAuthHeaders` of `src/services/api.js`.  When no token is
available it throws `Authentication token not found. Please log in
again.`, which its own catch block replaces by the generic
`Authentication failed. Please log in again.` error that the caller
sees. -/
def getAuthHeaders (session : Option Session) :
    Except ApiError (List (String × String)) :=
  match sessionToken session with
  | none => Except.error { msg := "Authentication failed. Please log in again." }
  | some t =>
      Except.ok
        [("Content-Type", "application/json"), ("Authorization", "Bearer " ++ t)]

/-- JavaScript object spread `{...headers, ...options.headers}`: keys of
the second object win. -/
def mergeHeaders (base override : List (String × String)) :
    List (String × String) :=
  base.filter (fun kv => (override.lookup kv.fst).isNone) ++ override

/-- What one call to `makeRequest` did: whether `fetch` was reached, the
headers it sent, and the value returned or error thrown. -/
structure RequestTrace (A : Type) where
  fetched : Bool
  sentHeaders : List (String × String)
  result : Except ApiError A

/-- `makeRequest` of `src/services/api.js`: resolve headers first (for
`requireAuth` via `getAuthHeaders`, whose failure aborts the call before
`fetch`), merge `options.headers` over them, then map the fetch outcome:
rejection is rethrown, a non-ok response becomes
`errorData.error || HTTP error! status: <n>`, an ok response yields its
JSON body.  The final catch block only logs and rethrows. -/
def makeRequest (A : Type) (session : Option Session)
    (optionHeaders : List (String × String)) (requireAuth : Bool)
    (net : NetOutcome A) : RequestTrace A :=
  let base :=
    if requireAuth then getAuthHeaders session
    else Except.ok [("Content-Type", "application/json")]
  match base with
  | Except.error e => { fetched := false, sentHeaders := [], result := Except.error e }
  | Except.ok hs =>
      let sent := mergeHeaders hs optionHeaders
      match net with
      | NetOutcome.netError m =>
          { fetched := true, sentHeaders := sent, result := Except.error { msg := m } }
      | NetOutcome.httpError status serverMsg =>
          { fetched := true, sentHeaders := sent,
            result := Except.error
              { msg :=
                  match serverMsg with
                  | some m => m
                  | none => "HTTP error! status: " ++ toString status } }
      | NetOutcome.success v =>
          { fetched := true, sentHeaders := sent, result := Except.ok v }

/-- Is an `Except` a success? -/
def exceptOk (A : Type) (r : Except ApiError A) : Bool :=
  match r with
  | Except.ok _ => true
  | Except.error _ => false

/-- Looking up a key that the override object does not define finds the
value of the base object in the merged header object. -/
theorem mergeHeaders_lookup_of_override_none (base override : List (String × String))
    (k : String) (hov : override.lookup k = none) :
    (mergeHeaders base override).lookup k = base.lookup k := by
  induction base with
  | nil => simpa [mergeHeaders] using hov
  | cons kv rest ih =>
      obtain ⟨a, b⟩ := kv
      by_cases hak : k = a
      · subst hak
        simp [mergeHeaders, List.filter_cons, hov, List.lookup]
      · have hne : (k == a) = false := by
          simp [hak]
        cases hfilter : (List.lookup a override).isNone <;>
          simpa [mergeHeaders, List.filter_cons, hfilter, List.lookup, hne]
            using ih

/-- C6: for every call of `makeRequest` with `requireAuth` set, a session
without an access token makes the call fail with the
authentication-required error before `fetch` runs, and with a token the
request goes out carrying `Authorization: Bearer <token>` (unless the
caller explicitly overrides that header in `options.headers`, which no
call site does). -/
theorem makeRequest_auth_gate (A : Type) (session : Option Session)
    (optionHeaders : List (String × String)) (net : NetOutcome A) :
    (sessionToken session = none →
      (makeRequest A session optionHeaders true net).fetched = false
      ∧ (makeRequest A session optionHeaders true net).result =
          Except.error { msg := "Authentication failed. Please log in again." })
    ∧ (∀ t : String, sessionToken session = some t →
        optionHeaders.lookup "Authorization" = none →
        (makeRequest A session optionHeaders true net).fetched = true
        ∧ (makeRequest A session optionHeaders true net).sentHeaders.lookup
            "Authorization" = some ("Bearer " ++ t)) := by
  constructor
  · intro h
    simp [makeRequest, getAuthHeaders, h]
  · intro t ht hov
    have hmerge :=
      mergeHeaders_lookup_of_override_none
        [("Content-Type", "application/json"), ("Authorization", "Bearer " ++ t)]
        optionHeaders "Authorization" hov
    simp only [makeRequest, getAuthHeaders, ht]
    cases net <;> simp_all [List.lookup]

/-- Witness for `makeRequest_auth_gate`: a tokenless call aborts before
fetch; a call with token `tok` sends the bearer header. -/
theorem makeRequest_auth_gate_witness :
    (makeRequest Profile none [] true
        (NetOutcome.netError "Failed to fetch")).fetched = false
    ∧ (makeRequest Profile (some { access_token := some "tok" }) [] true
        (NetOutcome.success {})).sentHeaders.lookup "Authorization" =
          some ("Bearer " ++ "tok") :=
  ⟨((makeRequest_auth_gate Profile none []
      (NetOutcome.netError "Failed to fetch")).1 rfl).1,
   ((makeRequest_auth_gate Profile (some { access_token := some "tok" }) []
      (NetOutcome.success {})).2 "tok" rfl rfl).2⟩

/-- The scholarship statistics payload; the documented safe fallback of
the dashboard variant is `{ totalEligibleAmount: 0, opportunities: [] }`. -/
structure ScholarshipStats where
  totalEligibleAmount : Int
  opportunities : List String
deriving DecidableEq

/-- `getScholarshipStats` of the consolidated `src/services/api.js`
(`GET /scholarships/stats`, no auth): its catch block only logs and
rethrows, so the underlying failure propagates to the caller. -/
def getScholarshipStatsMain (net : NetOutcome ScholarshipStats) :
    Except ApiError ScholarshipStats :=
  (makeRequest ScholarshipStats none [] false net).result

/-- `getScholarshipStats` of the dashboard variant of `src/services/api.js`
(`GET /dashboard/scholarship-stats`, no auth): its catch block swallows
the failure and returns the safe fallback
`{ totalEligibleAmount: 0, opportunities: [] }`. -/
def getScholarshipStatsDash (net : NetOutcome ScholarshipStats) :
    Except ApiError ScholarshipStats :=
  match (makeRequest ScholarshipStats none [] false net).result with
  | Except.ok v => Except.ok v
  | Except.error _ =>
      Except.ok { totalEligibleAmount := 0, opportunities := [] }

/-- `updateProfile` of `src/services/api.js`
(`PUT /profile/:userId`, auth required): no catch block of its own, so
every failure of `makeRequest` propagates to the caller. -/
def updateProfileApi (session : Option Session) (net : NetOutcome Profile) :
    RequestTrace Profile :=
  makeRequest Profile session [] true net

/-- C2 counterexample: in the consolidated `src/services/api.js`, a
failing call to the scholarship-stats endpoint does not resolve to the
empty fallback shape; the error is rethrown to the caller (here: a
rejected fetch, and a 500 response). -/
theorem scholarshipStats_throws_cex :
    getScholarshipStatsMain (NetOutcome.netError "Failed to fetch") =
        Except.error { msg := "Failed to fetch" }
    ∧ exceptOk ScholarshipStats
        (getScholarshipStatsMain (NetOutcome.netError "Failed to fetch")) = false
    ∧ getScholarshipStatsMain (NetOutcome.httpError 500 none) =
        Except.error { msg := "HTTP error! status: 500" } :=
  ⟨rfl, rfl, rfl⟩

/-- C2 amended: the dashboard variant of `getScholarshipStats` never
throws — every failing call resolves to the documented fallback
`{ totalEligibleAmount: 0, opportunities: [] }` — while the variant in the
consolidated `src/services/api.js` rethrows; `updateProfile` propagates
every failure (network rejection, HTTP error, missing token) to its
caller in either version. -/
theorem scholarshipStats_fallback_amended (net : NetOutcome ScholarshipStats)
    (m : String) (status : Nat) (serverMsg : Option String) (t : String) :
    exceptOk ScholarshipStats (getScholarshipStatsDash net) = true
    ∧ getScholarshipStatsDash (NetOutcome.netError m) =
        Except.ok { totalEligibleAmount := 0, opportunities := [] }
    ∧ getScholarshipStatsDash (NetOutcome.httpError status serverMsg) =
        Except.ok { totalEligibleAmount := 0, opportunities := [] }
    ∧ getScholarshipStatsMain (NetOutcome.netError m) =
        Except.error { msg := m }
    ∧ (updateProfileApi (some { access_token := some t })
        (NetOutcome.netError m)).result = Except.error { msg := m }
    ∧ (updateProfileApi none (NetOutcome.netError m)).result =
        Except.error { msg := "Authentication failed. Please log in again." } := by
  refine ⟨?_, ?_, ?_, rfl, rfl, rfl⟩
  · cases net <;> rfl
  · rfl
  · cases serverMsg <;> rfl

/-- `getProfile` of `src/services/api.js` (`GET /profile/:userId`, auth
required): a failure whose message contains the substring `404` resolves
to `null`; every other failure is rethrown; a success resolves to the
profile object. -/
def getProfileApi (session : Option Session) (net : NetOutcome Profile) :
    Except ApiError (Option Profile) :=
  match (makeRequest Profile session [] true net).result with
  | Except.ok v => Except.ok (some v)
  | Except.error e =>
      if strContains e.msg "404" then Except.ok none else Except.error e

/-- `createProfile` of `src/services/api.js` (`POST /profile`, auth
required): no catch block, failures propagate. -/
def createProfileApi (session : Option Session) (net : NetOutcome Profile) :
    RequestTrace Profile :=
  makeRequest Profile session [] true net

/-- The `newProfileData` object `manageUserProfile` synthesises from the
session user before calling `createProfile`. -/
def newProfileData (u : User) : Profile :=
  { email := JsValue.vStr u.email, fullName := JsValue.vStr u.fullName,
    avatarUrl := JsValue.vStr u.avatarUrl, provider := JsValue.vStr u.provider,
    gpa := JsValue.vNull, major := JsValue.vNull,
    graduationYear := JsValue.vNull }

/-- What one run of the profile reconciler did: the profile and
completeness flag it set, and the creation request body when
`createProfile` was invoked. -/
structure ReconcileResult where
  profile : Option Profile
  isProfileComplete : Bool
  createRequested : Option Profile
deriving DecidableEq

/-- `manageUserProfile` of `src/contexts/AuthContext.js`: with no user it
clears profile and completeness; with a user it fetches the profile,
creates one from `newProfileData` exactly when the fetch resolved to
null, sets completeness to `!!userProfile?.gpa`, and on any thrown error
clears profile and completeness. -/
def manageUserProfile (user : Option User) (session : Option Session)
    (fetchNet : NetOutcome Profile) (createNet : NetOutcome Profile) :
    ReconcileResult :=
  match user with
  | none => { profile := none, isProfileComplete := false, createRequested := none }
  | some u =>
      match getProfileApi session fetchNet with
      | Except.error _ =>
          { profile := none, isProfileComplete := false, createRequested := none }
      | Except.ok (some p) =>
          { profile := some p, isProfileComplete := p.gpa.truthy,
            createRequested := none }
      | Except.ok none =>
          match (createProfileApi session createNet).result with
          | Except.error _ =>
              { profile := none, isProfileComplete := false,
                createRequested := some (newProfileData u) }
          | Except.ok p =>
              { profile := some p, isProfileComplete := p.gpa.truthy,
                createRequested := some (newProfileData u) }

/-- C10: `getProfile` resolves to null exactly when the underlying
request failed with a message containing `404`; any other failure
propagates unchanged; and the reconciler issues a `createProfile` request
precisely when `getProfile` resolved to null. -/
theorem getProfile_null_iff_404 (session : Option Session)
    (net : NetOutcome Profile) :
    (getProfileApi session net = Except.ok none ↔
      ∃ e : ApiError, (makeRequest Profile session [] true net).result =
          Except.error e ∧ strContains e.msg "404" = true)
    ∧ (∀ e : ApiError,
        (makeRequest Profile session [] true net).result = Except.error e →
        strContains e.msg "404" = false →
        getProfileApi session net = Except.error e)
    ∧ (∀ (u : User) (createNet : NetOutcome Profile),
        (manageUserProfile (some u) session net createNet).createRequested.isSome
          = true ↔ getProfileApi session net = Except.ok none) := by
  refine ⟨?_, ?_, ?_⟩
  · constructor
    · intro h
      cases hres : (makeRequest Profile session [] true net).result with
      | ok v => simp [getProfileApi, hres] at h
      | error e =>
          simp only [getProfileApi, hres] at h
          cases h404 : strContains e.msg "404" with
          | true => exact ⟨e, hres ▸ rfl, h404⟩
          | false =>
              rw [h404] at h
              simp at h
    · rintro ⟨e, he, h404⟩
      simp [getProfileApi, he, h404]
  · intro e he h404
    simp [getProfileApi, he, h404]
  · intro u createNet
    unfold manageUserProfile
    cases hp : getProfileApi session net with
    | error e => simp
    | ok v =>
        cases v with
        | none => cases (createProfileApi session createNet).result <;> simp
        | some p => simp

/-- Witness for `getProfile_null_iff_404`: with a valid token and a 404
response, `getProfile` resolves to null and the reconciler requests
creation; with a 500 response the error propagates. -/
theorem getProfile_null_iff_404_witness :
    getProfileApi (some { access_token := some "tok" })
        (NetOutcome.httpError 404 none) = Except.ok none
    ∧ getProfileApi (some { access_token := some "tok" })
        (NetOutcome.httpError 500 none) =
          Except.error { msg := "HTTP error! status: 500" }
    ∧ ((manageUserProfile
          (some { id := "u1", email := "u@example.com", fullName := "U",
                  avatarUrl := "", provider := "email" })
          (some { access_token := some "tok" })
          (NetOutcome.httpError 404 none)
          (NetOutcome.success {})).createRequested.isSome = true ↔
        getProfileApi (some { access_token := some "tok" })
          (NetOutcome.httpError 404 none) = Except.ok none) :=
  ⟨(getProfile_null_iff_404 (some { access_token := some "tok" })
      (NetOutcome.httpError 404 none)).1.mpr
        ⟨{ msg := "HTTP error! status: 404" }, rfl, rfl⟩,
   (getProfile_null_iff_404 (some { access_token := some "tok" })
      (NetOutcome.httpError 500 none)).2.1
        { msg := "HTTP error! status: 500" } rfl rfl,
   (getProfile_null_iff_404 (some { access_token := some "tok" })
      (NetOutcome.httpError 404 none)).2.2
        { id := "u1", email := "u@example.com", fullName := "U",
          avatarUrl := "", provider := "email" }
        (NetOutcome.success {})⟩

/-- The redirect URL the provider sent the browser back with: the
query-string parameters and the URL-fragment (hash) parameters. -/
structure CallbackUrl where
  queryParams : List (String × String)
  hashParams : List (String × String)
deriving DecidableEq

/-- What one run of the callback effect decided: keep waiting (the
loading gate), render the error screen with its return-to-login button,
or route onward. -/
inductive CallbackOutcome where
  | Wait : CallbackOutcome
  | ShowError : String → CallbackOutcome
  | NavigateDashboard : CallbackOutcome
  | NavigateProfile : CallbackOutcome
deriving DecidableEq

/-- `URLSearchParams.get` followed by a JavaScript truthiness test:
an absent parameter and an empty-valued parameter are both falsy. -/
def truthyParam (o : Option String) : Bool :=
  match o with
  | none => false
  | some s => s != ""

/-- The effect of the fragment-parsing `AuthCallback` page
(`new URLSearchParams(window.location.hash.substring(1))`): return while
loading; show `Authentication error: <errorDescription || authError>` on
a truthy `error` hash parameter; else navigate by completeness if a user
exists; else show the generic failure message. -/
def authCallbackHash (loading : Bool) (url : CallbackUrl)
    (user : Option User) (complete : Bool) : CallbackOutcome :=
  if loading then CallbackOutcome.Wait
  else if truthyParam (url.hashParams.lookup "error") then
    let e := (url.hashParams.lookup "error").getD ""
    let d :=
      match url.hashParams.lookup "error_description" with
      | some s => if s = "" then e else s
      | none => e
    CallbackOutcome.ShowError ("Authentication error: " ++ d)
  else
    match user with
    | some _ =>
        if complete then CallbackOutcome.NavigateDashboard
        else CallbackOutcome.NavigateProfile
    | none =>
        CallbackOutcome.ShowError
          "Authentication failed. Please try logging in again."

/-- The effect of the query-parsing `AuthCallback` page
(`new URLSearchParams(window.location.search)`): return while loading;
show `Authentication error: <authError>` on a truthy `error` query
parameter; else route by completeness if a user exists; else show the
generic failure message. -/
def authCallbackQuery (loading : Bool) (url : CallbackUrl)
    (user : Option User) (complete : Bool) : CallbackOutcome :=
  if loading then CallbackOutcome.Wait
  else if truthyParam (url.queryParams.lookup "error") then
    CallbackOutcome.ShowError
      ("Authentication error: " ++ (url.queryParams.lookup "error").getD "")
  else
    match user with
    | some _ =>
        if complete then CallbackOutcome.NavigateDashboard
        else CallbackOutcome.NavigateProfile
    | none => CallbackOutcome.ShowError "Authentication failed. Please try again."

/-- Did the callback land on the error screen (which carries the
return-to-login button)? -/
def isErrorOutcome (o : CallbackOutcome) : Bool :=
  match o with
  | CallbackOutcome.ShowError _ => true
  | _ => false

/-- Did the callback treat the redirect as a successful authentication
and route onward? -/
def isNavigateOutcome (o : CallbackOutcome) : Bool :=
  match o with
  | CallbackOutcome.NavigateDashboard => true
  | CallbackOutcome.NavigateProfile => true
  | _ => false

/-- A user object for concrete evaluations. -/
def sampleUser : User :=
  { id := "u1", email := "u@example.com", fullName := "U", avatarUrl := "",
    provider := "google" }

/-- A redirect URL carrying the provider error in the query string only. -/
def queryErrorUrl : CallbackUrl :=
  { queryParams :=
      [("error", "access_denied"), ("error_description", "User denied access")],
    hashParams := [] }

/-- A redirect URL carrying the provider error in the URL fragment only. -/
def hashErrorUrl : CallbackUrl :=
  { queryParams := [],
    hashParams :=
      [("error", "access_denied"), ("error_description", "User denied access")] }

/-- C4 counterexample: each callback version parses only one encoding.
The fragment-parsing version, given provider error parameters in the
query string and an established session, navigates onward instead of
reaching the error screen; symmetrically the query-parsing version
ignores fragment-encoded errors.  So the handler does not reach the
error-display state for every error-carrying redirect URL of either
encoding. -/
theorem callback_missed_encoding_cex :
    authCallbackHash false queryErrorUrl (some sampleUser) true =
        CallbackOutcome.NavigateDashboard
    ∧ isErrorOutcome
        (authCallbackHash false queryErrorUrl (some sampleUser) true) = false
    ∧ authCallbackQuery false hashErrorUrl (some sampleUser) true =
        CallbackOutcome.NavigateDashboard
    ∧ isErrorOutcome
        (authCallbackQuery false hashErrorUrl (some sampleUser) true) = false := by
  decide

/-- C4 amended: each callback version reaches the error-display state
(with its return-to-login action) for a truthy provider error parameter
in the one encoding it parses — the fragment for one version, the query
string for the other — and neither version ever treats a null session as
a successful authentication: with no user the outcome is never a
navigation. -/
theorem callback_error_display_amended (url : CallbackUrl)
    (user : Option User) (complete loading : Bool) :
    (truthyParam (url.hashParams.lookup "error") = true →
      isErrorOutcome (authCallbackHash false url user complete) = true)
    ∧ (truthyParam (url.queryParams.lookup "error") = true →
      isErrorOutcome (authCallbackQuery false url user complete) = true)
    ∧ isNavigateOutcome (authCallbackHash loading url none complete) = false
    ∧ isNavigateOutcome (authCallbackQuery loading url none complete) = false := by
  refine ⟨?_, ?_, ?_, ?_⟩
  · intro h
    simp [authCallbackHash, h, isErrorOutcome]
  · intro h
    simp [authCallbackQuery, h, isErrorOutcome]
  · cases loading
    · simp [authCallbackHash, isNavigateOutcome]
      cases truthyParam (url.hashParams.lookup "error") <;> simp
    · simp [authCallbackHash, isNavigateOutcome]
  · cases loading
    · simp [authCallbackQuery, isNavigateOutcome]
      cases truthyParam (url.queryParams.lookup "error") <;> simp
    · simp [authCallbackQuery, isNavigateOutcome]

/-- Witness for `callback_error_display_amended`: the fragment-encoded
error reaches the error screen; the query-encoded error reaches it in the
query-parsing version. -/
theorem callback_error_display_amended_witness :
    isErrorOutcome
        (authCallbackHash false hashErrorUrl (some sampleUser) true) = true
    ∧ isErrorOutcome
        (authCallbackQuery false queryErrorUrl none false) = true :=
  ⟨(callback_error_display_amended hashErrorUrl (some sampleUser) true false).1
      (by decide),
   (callback_error_display_amended queryErrorUrl none false false).2.1
      (by decide)⟩

/-- C5: while the session store is still loading, both callback versions
return immediately: the outcome is the waiting screen, independent of the
session and completeness values (the session is not inspected), and in
particular never an authentication-failure conclusion. -/
theorem callback_waits_while_loading (url : CallbackUrl)
    (u1 u2 : Option User) (c1 c2 : Bool) :
    authCallbackHash true url u1 c1 = CallbackOutcome.Wait
    ∧ authCallbackQuery true url u1 c1 = CallbackOutcome.Wait
    ∧ authCallbackHash true url u1 c1 = authCallbackHash true url u2 c2
    ∧ authCallbackQuery true url u1 c1 = authCallbackQuery true url u2 c2
    ∧ isErrorOutcome (authCallbackHash true url u1 c1) = false
    ∧ isErrorOutcome (authCallbackQuery true url u1 c1) = false := by
  refine ⟨rfl, rfl, rfl, rfl, rfl, rfl⟩

/-- The auth client installed at module load: a real client built from
the configured URL and key, or the mock object of the fallback version of
`src/utils/supabase.js`. -/
inductive SupabaseClient where
  | real : String → String → SupabaseClient
  | mock : SupabaseClient
deriving DecidableEq

/-- JavaScript truthiness of an environment variable: unset and empty
both count as absent (`!supabaseUrl`). -/
def truthyEnv (o : Option String) : Bool :=
  match o with
  | none => false
  | some s => s != ""

/-- Module initialisation of `src/utils/supabase.js`: when either
environment variable is absent the module throws at load time, which
fails the import graph and with it the whole application load; otherwise
`createClient` is called. -/
def supabaseInitMain (url anonKey : Option String) :
    Except ApiError SupabaseClient :=
  if truthyEnv url && truthyEnv anonKey then
    Except.ok (SupabaseClient.real (url.getD "") (anonKey.getD ""))
  else
    Except.error
      { msg := "Supabase environment variables (REACT_APP_SUPABASE_URL and REACT_APP_SUPABASE_ANON_KEY) are not set." }

/-- Module initialisation of the fallback version of
`src/utils/supabase.js`: when either environment variable is absent a
mock client is installed instead of throwing (the surrounding try/catch
also falls back to the same mock object). -/
def supabaseInitFallback (url anonKey : Option String) : SupabaseClient :=
  if truthyEnv url && truthyEnv anonKey then
    SupabaseClient.real (url.getD "") (anonKey.getD "")
  else SupabaseClient.mock

/-- The auth operations of the client object. -/
inductive AuthOp where
  | signInWithPassword : AuthOp
  | signUp : AuthOp
  | signOut : AuthOp
  | signInWithOAuth : AuthOp
  | resetPasswordForEmail : AuthOp
  | signInWithOtp : AuthOp
  | verifyOtp : AuthOp
deriving DecidableEq

/-- A typed `{ data, error }` result of a provider auth operation:
whether a session was delivered, and the `error.message` field when the
operation failed. -/
structure SupaAuthResult where
  hasSession : Bool
  errMsg : Option String
deriving DecidableEq

/-- Every auth operation of the mock client resolves to
`{ error: { message: 'Supabase not configured' } }`. -/
def mockAuthOp (_op : AuthOp) : SupaAuthResult :=
  { hasSession := false, errMsg := some "Supabase not configured" }

/-- `getSession` of the mock client resolves to
`{ data: { session: null }, error: null }`. -/
def mockGetSession : Option Session := none

/-- C7 counterexample: with both configuration values absent, the module
initialisation of `src/utils/supabase.js` throws instead of installing a
stub, so the application load fails rather than degrading gracefully. -/
theorem supabase_missing_config_throws_cex :
    supabaseInitMain none none =
        Except.error
          { msg := "Supabase environment variables (REACT_APP_SUPABASE_URL and REACT_APP_SUPABASE_ANON_KEY) are not set." }
    ∧ exceptOk SupabaseClient (supabaseInitMain none none) = false
    ∧ exceptOk SupabaseClient (supabaseInitMain (some "") (some "key")) = false := by
  refine ⟨rfl, rfl, rfl⟩

/-- C7 amended: of the two versions of the supabase module, the fallback
version degrades gracefully — with either configuration value absent
(unset or empty) it installs the mock client, whose auth operations all
resolve to the typed `Supabase not configured` error result and whose
`getSession` resolves to a null session — while the version in
`src/utils/supabase.js` throws at module initialisation. -/
theorem supabase_stub_amended (op : AuthOp) (u k : Option String) :
    supabaseInitFallback none k = SupabaseClient.mock
    ∧ supabaseInitFallback u none = SupabaseClient.mock
    ∧ supabaseInitFallback (some "") k = SupabaseClient.mock
    ∧ supabaseInitFallback u (some "") = SupabaseClient.mock
    ∧ mockAuthOp op = { hasSession := false, errMsg := some "Supabase not configured" }
    ∧ mockGetSession = none
    ∧ exceptOk SupabaseClient (supabaseInitMain none k) = false := by
  refine ⟨rfl, ?_, rfl, ?_, rfl, rfl, rfl⟩
  · cases u <;> simp [supabaseInitFallback, truthyEnv]
  · cases u <;> simp [supabaseInitFallback, truthyEnv]

/-- The wrapped `signIn` of the `AuthProvider` value object in
`src/contexts/AuthContext.js`: `try { return await
supabase.auth.signInWithPassword(data) } catch (error) { ...; throw
error; }` — a typed result passes through, an exception is rethrown. -/
def storeSignIn (provider : Except ApiError SupaAuthResult) :
    Except ApiError SupaAuthResult :=
  match provider with
  | Except.ok r => Except.ok r
  | Except.error e => Except.error e

/-- The wrapped `signUp` of `AuthProvider` (same catch-and-rethrow). -/
def storeSignUp (provider : Except ApiError SupaAuthResult) :
    Except ApiError SupaAuthResult :=
  match provider with
  | Except.ok r => Except.ok r
  | Except.error e => Except.error e

/-- The wrapped `signOut` of `AuthProvider` (same catch-and-rethrow). -/
def storeSignOut (provider : Except ApiError SupaAuthResult) :
    Except ApiError SupaAuthResult :=
  match provider with
  | Except.ok r => Except.ok r
  | Except.error e => Except.error e

/-- The wrapped `signInWithGoogle` of `AuthProvider`: on success it
additionally extracts tokens from the session, then returns the result
unchanged; an exception is rethrown. -/
def storeSignInWithGoogle (provider : Except ApiError SupaAuthResult) :
    Except ApiError SupaAuthResult :=
  match provider with
  | Except.ok r => Except.ok r
  | Except.error e => Except.error e

/-- The wrapped `resetPasswordForEmail` of `AuthProvider` (same
catch-and-rethrow). -/
def storeResetPassword (provider : Except ApiError SupaAuthResult) :
    Except ApiError SupaAuthResult :=
  match provider with
  | Except.ok r => Except.ok r
  | Except.error e => Except.error e

/-- The wrapped `signInWithOtp` of `AuthProvider` (same
catch-and-rethrow). -/
def storeSignInWithOtp (provider : Except ApiError SupaAuthResult) :
    Except ApiError SupaAuthResult :=
  match provider with
  | Except.ok r => Except.ok r
  | Except.error e => Except.error e

/-- The wrapped `verifyOtp` of `AuthProvider` (same catch-and-rethrow). -/
def storeVerifyOtp (provider : Except ApiError SupaAuthResult) :
    Except ApiError SupaAuthResult :=
  match provider with
  | Except.ok r => Except.ok r
  | Except.error e => Except.error e

/-- C8 counterexample: a provider call that throws (for example a network
rejection) is rethrown by the session-store wrapper, so an exception does
propagate past the session-store boundary to the caller instead of being
returned as a typed failure. -/
theorem sessionStore_rethrows_cex :
    storeSignIn (Except.error { msg := "Failed to fetch" }) =
        Except.error { msg := "Failed to fetch" }
    ∧ exceptOk SupaAuthResult
        (storeSignIn (Except.error { msg := "Failed to fetch" })) = false
    ∧ exceptOk SupaAuthResult
        (storeSignOut (Except.error { msg := "Failed to fetch" })) = false := by
  refine ⟨rfl, rfl, rfl⟩

/-- C8 amended: every session-store operation passes the provider's
typed `{ data, error }` result through unchanged — so provider failures
reported that way do reach callers as typed values — but each wrapper's
catch block rethrows exceptions, so a rejected provider call propagates
as an exception past the session-store boundary. -/
theorem sessionStore_passthrough_amended (r : SupaAuthResult) (e : ApiError) :
    storeSignIn (Except.ok r) = Except.ok r
    ∧ storeSignUp (Except.ok r) = Except.ok r
    ∧ storeSignOut (Except.ok r) = Except.ok r
    ∧ storeSignInWithGoogle (Except.ok r) = Except.ok r
    ∧ storeResetPassword (Except.ok r) = Except.ok r
    ∧ storeSignInWithOtp (Except.ok r) = Except.ok r
    ∧ storeVerifyOtp (Except.ok r) = Except.ok r
    ∧ storeSignIn (Except.error e) = Except.error e
    ∧ storeSignUp (Except.error e) = Except.error e
    ∧ storeSignOut (Except.error e) = Except.error e
    ∧ storeSignInWithGoogle (Except.error e) = Except.error e
    ∧ storeResetPassword (Except.error e) = Except.error e
    ∧ storeSignInWithOtp (Except.error e) = Except.error e
    ∧ storeVerifyOtp (Except.error e) = Except.error e := by
  refine ⟨rfl, rfl, rfl, rfl, rfl, rfl, rfl, rfl, rfl, rfl, rfl, rfl, rfl, rfl⟩

/-- The top-matches response body; `matchesResponse.results` may be
absent (`results?.slice(0, 3) || []`). -/
structure MatchesResp where
  results : Option (List String)
deriving DecidableEq

/-- The deadlines response body; `deadlinesResponse.deadlines` may be
absent (`deadlines?.slice(0, 2) || []`). -/
structure DeadlinesResp where
  deadlines : Option (List String)
deriving DecidableEq

/-- The scholarship-summary payload, opaque to the dashboard. -/
def SummaryData : Type := String

/-- The user-stats payload, opaque to the dashboard. -/
def UserStatsData : Type := String

/-- The next-steps payload, opaque to the dashboard. -/
def NextStepsData : Type := String

/-- The component state `loadDashboardData` leaves behind: the six data
sections and the `errors` map (modelled as the ordered list of its keys;
each section writes at most its own key, so the key list determines the
map). -/
structure DashboardState where
  collegeMatches : List String
  scholarshipStats : Option ScholarshipStats
  scholarshipSummary : Option SummaryData
  upcomingDeadlines : List String
  userStats : Option UserStatsData
  nextSteps : Option NextStepsData
  errors : List String

/-- The state before any fetch resolves (the initial `useState` values;
object-typed sections start as the empty object, modelled `none`). -/
def initialDashboardState : DashboardState :=
  { collegeMatches := [], scholarshipStats := none, scholarshipSummary := none,
    upcomingDeadlines := [], userStats := none, nextSteps := none, errors := [] }

/-- `matchesResponse.results?.slice(0, 3) || []`. -/
def takeMatches (r : MatchesResp) : List String :=
  match r.results with
  | some l => l.take 3
  | none => []

/-- `deadlinesResponse.deadlines?.slice(0, 2) || []`. -/
def takeDeadlines (r : DeadlinesResp) : List String :=
  match r.deadlines with
  | some l => l.take 2
  | none => []

/-- `loadDashboardData` of `src/pages/DashboardPage.js` over the outcomes
of its six awaited calls: without a profile nothing is fetched; with one,
each call sits in its own try/catch — a resolved call writes its section,
a rejected call appends exactly its own key to `errors` — and the
user-stats call happens only when `user?.id` is truthy. -/
def loadDashboardData (profile : Option Profile) (hasUserId : Bool)
    (oMatches : Except ApiError MatchesResp)
    (oStats : Except ApiError ScholarshipStats)
    (oSummary : Except ApiError SummaryData)
    (oDeadlines : Except ApiError DeadlinesResp)
    (oUserStats : Except ApiError UserStatsData)
    (oNextSteps : Except ApiError NextStepsData) : DashboardState :=
  match profile with
  | none => initialDashboardState
  | some _ =>
      let s1 :=
        match oMatches with
        | Except.ok r => { initialDashboardState with collegeMatches := takeMatches r }
        | Except.error _ =>
            { initialDashboardState with
                errors := initialDashboardState.errors ++ ["collegeMatches"] }
      let s2 :=
        match oStats with
        | Except.ok v => { s1 with scholarshipStats := some v }
        | Except.error _ => { s1 with errors := s1.errors ++ ["scholarshipStats"] }
      let s3 :=
        match oSummary with
        | Except.ok v => { s2 with scholarshipSummary := some v }
        | Except.error _ => { s2 with errors := s2.errors ++ ["scholarshipSummary"] }
      let s4 :=
        match oDeadlines with
        | Except.ok r => { s3 with upcomingDeadlines := takeDeadlines r }
        | Except.error _ => { s3 with errors := s3.errors ++ ["deadlines"] }
      let s5 :=
        if hasUserId then
          match oUserStats with
          | Except.ok v => { s4 with userStats := some v }
          | Except.error _ => { s4 with errors := s4.errors ++ ["userStats"] }
        else s4
      match oNextSteps with
      | Except.ok v => { s5 with nextSteps := some v }
      | Except.error _ => { s5 with errors := s5.errors ++ ["nextSteps"] }

/-- Is an `Except` a failure? -/
def exceptErr (A : Type) (r : Except ApiError A) : Bool :=
  match r with
  | Except.ok _ => false
  | Except.error _ => true

/-- Modelled from the spec words, for comparison with the code: the error
map the claim demands — exactly one key per failing fetch, in load order,
and no key for any succeeding fetch. -/
def expectedErrorKeys (hasUserId : Bool)
    (oMatches : Except ApiError MatchesResp)
    (oStats : Except ApiError ScholarshipStats)
    (oSummary : Except ApiError SummaryData)
    (oDeadlines : Except ApiError DeadlinesResp)
    (oUserStats : Except ApiError UserStatsData)
    (oNextSteps : Except ApiError NextStepsData) : List String :=
  (if exceptErr MatchesResp oMatches then ["collegeMatches"] else [])
    ++ (if exceptErr ScholarshipStats oStats then ["scholarshipStats"] else [])
    ++ (if exceptErr SummaryData oSummary then ["scholarshipSummary"] else [])
    ++ (if exceptErr DeadlinesResp oDeadlines then ["deadlines"] else [])
    ++ (if hasUserId && exceptErr UserStatsData oUserStats then ["userStats"] else [])
    ++ (if exceptErr NextStepsData oNextSteps then ["nextSteps"] else [])

/-- `getTopMatches` of the dashboard variant of `src/services/api.js`:
failures are swallowed into the safe fallback `{ results: [] }`. -/
def getTopMatchesDash (net : NetOutcome MatchesResp) :
    Except ApiError MatchesResp :=
  match (makeRequest MatchesResp none [] false net).result with
  | Except.ok v => Except.ok v
  | Except.error _ => Except.ok { results := some [] }

/-- `getUpcomingDeadlines` of the dashboard variant of
`src/services/api.js`: failures are swallowed into the safe fallback
`{ deadlines: [] }`. -/
def getUpcomingDeadlinesDash (net : NetOutcome DeadlinesResp) :
    Except ApiError DeadlinesResp :=
  match (makeRequest DeadlinesResp none [] false net).result with
  | Except.ok v => Except.ok v
  | Except.error _ => Except.ok { deadlines := some [] }

/-- `getScholarshipSummary` of the dashboard variant of
`src/services/api.js`: a plain `makeRequest`, failures propagate. -/
def getScholarshipSummaryDash (net : NetOutcome SummaryData) :
    Except ApiError SummaryData :=
  (makeRequest SummaryData none [] false net).result

/-- `getUserStats` of the dashboard variant of `src/services/api.js`: a
plain authenticated `makeRequest`, failures propagate. -/
def getUserStatsDash (session : Option Session) (net : NetOutcome UserStatsData) :
    Except ApiError UserStatsData :=
  (makeRequest UserStatsData session [] true net).result

/-- `getNextStepsData` of the dashboard variant of `src/services/api.js`:
a plain authenticated `makeRequest`, failures propagate. -/
def getNextStepsDataDash (session : Option Session)
    (net : NetOutcome NextStepsData) : Except ApiError NextStepsData :=
  (makeRequest NextStepsData session [] true net).result

/-- The dashboard load composed with the API layer it imports: each
awaited call's outcome is the corresponding wrapper applied to its fetch
outcome. -/
def loadDashboardE2E (profile : Option Profile) (hasUserId : Bool)
    (session : Option Session) (nMatches : NetOutcome MatchesResp)
    (nStats : NetOutcome ScholarshipStats) (nSummary : NetOutcome SummaryData)
    (nDeadlines : NetOutcome DeadlinesResp)
    (nUserStats : NetOutcome UserStatsData)
    (nNextSteps : NetOutcome NextStepsData) : DashboardState :=
  loadDashboardData profile hasUserId
    (getTopMatchesDash nMatches)
    (getScholarshipStatsDash nStats)
    (getScholarshipSummaryDash nSummary)
    (getUpcomingDeadlinesDash nDeadlines)
    (getUserStatsDash session nUserStats)
    (getNextStepsDataDash session nNextSteps)

/-- A concrete profile and session for the dashboard evaluations. -/
def sampleSession : Option Session := some { access_token := some "tok" }

/-- C9 counterexample: end to end, a failing scholarship-stats fetch (a
rejected request; every other fetch succeeds) is swallowed by the API
layer into the `{ totalEligibleAmount: 0, opportunities: [] }` fallback,
so the error map exposed to the UI is empty — it does not contain one key
per failing fetch. -/
theorem dashboard_swallowed_failure_cex :
    (loadDashboardE2E (some profileAllNA) true sampleSession
        (NetOutcome.success { results := some ["c1"] })
        (NetOutcome.netError "Failed to fetch")
        (NetOutcome.success "summary")
        (NetOutcome.success { deadlines := some ["d1"] })
        (NetOutcome.success "stats")
        (NetOutcome.success "steps")).errors = []
    ∧ (loadDashboardE2E (some profileAllNA) true sampleSession
        (NetOutcome.success { results := some ["c1"] })
        (NetOutcome.netError "Failed to fetch")
        (NetOutcome.success "summary")
        (NetOutcome.success { deadlines := some ["d1"] })
        (NetOutcome.success "stats")
        (NetOutcome.success "steps")).scholarshipStats =
          some { totalEligibleAmount := 0, opportunities := [] }
    ∧ (loadDashboardE2E (some profileAllNA) true sampleSession
        (NetOutcome.success { results := some ["c1"] })
        (NetOutcome.netError "Failed to fetch")
        (NetOutcome.success "summary")
        (NetOutcome.success { deadlines := some ["d1"] })
        (NetOutcome.success "stats")
        (NetOutcome.success "steps")).errors ≠ ["scholarshipStats"] := by
  refine ⟨rfl, rfl, fun h => ?_⟩
  have h2 : ([] : List String) = ["scholarshipStats"] := by
    calc ([] : List String) = _ := rfl
    _ = ["scholarshipStats"] := h
  exact List.noConfusion h2

/-- C9 amended: at the component level the six awaited loads are
isolated — the error map is exactly the ordered keys of the rejected
calls and every resolved call's section holds its data — but three of the
fetches (top matches, scholarship stats, upcoming deadlines) swallow
their failures inside the API layer and resolve to empty fallbacks, so
their underlying failures surface no error key (see the counterexample);
only summary, user-stats and next-steps failures reach the error map. -/
theorem dashboard_isolation_amended (p : Profile) (hasUserId : Bool)
    (oMatches : Except ApiError MatchesResp)
    (oStats : Except ApiError ScholarshipStats)
    (oSummary : Except ApiError SummaryData)
    (oDeadlines : Except ApiError DeadlinesResp)
    (oUserStats : Except ApiError UserStatsData)
    (oNextSteps : Except ApiError NextStepsData) :
    (loadDashboardData (some p) hasUserId oMatches oStats oSummary oDeadlines
        oUserStats oNextSteps).errors =
      expectedErrorKeys hasUserId oMatches oStats oSummary oDeadlines
        oUserStats oNextSteps
    ∧ (∀ r, oMatches = Except.ok r →
        (loadDashboardData (some p) hasUserId oMatches oStats oSummary
          oDeadlines oUserStats oNextSteps).collegeMatches = takeMatches r)
    ∧ (∀ v, oStats = Except.ok v →
        (loadDashboardData (some p) hasUserId oMatches oStats oSummary
          oDeadlines oUserStats oNextSteps).scholarshipStats = some v)
    ∧ (∀ v, oSummary = Except.ok v →
        (loadDashboardData (some p) hasUserId oMatches oStats oSummary
          oDeadlines oUserStats oNextSteps).scholarshipSummary = some v)
    ∧ (∀ r, oDeadlines = Except.ok r →
        (loadDashboardData (some p) hasUserId oMatches oStats oSummary
          oDeadlines oUserStats oNextSteps).upcomingDeadlines = takeDeadlines r)
    ∧ (∀ v, hasUserId = true → oUserStats = Except.ok v →
        (loadDashboardData (some p) hasUserId oMatches oStats oSummary
          oDeadlines oUserStats oNextSteps).userStats = some v)
    ∧ (∀ v, oNextSteps = Except.ok v →
        (loadDashboardData (some p) hasUserId oMatches oStats oSummary
          oDeadlines oUserStats oNextSteps).nextSteps = some v) := by
  cases oMatches <;> cases oStats <;> cases oSummary <;> cases oDeadlines <;>
    cases oUserStats <;> cases oNextSteps <;> cases hasUserId <;>
      simp [loadDashboardData, expectedErrorKeys, exceptErr,
        initialDashboardState]

/-- Witness for `dashboard_isolation_amended`: with the stats and
user-stats calls rejected and the rest resolved, the error map is exactly
those two keys; with every call resolved, each section holds its data
(each hypothesis of the statement discharged at this concrete input). -/
theorem dashboard_isolation_amended_witness :
    (loadDashboardData (some profileAllNA) true
        (Except.ok { results := some ["a", "b", "c", "d"] })
        (Except.error { msg := "boom" })
        (Except.ok "summary")
        (Except.ok { deadlines := some ["d1", "d2", "d3"] })
        (Except.error { msg := "boom2" })
        (Except.ok "steps")).errors =
      expectedErrorKeys true
        (Except.ok { results := some ["a", "b", "c", "d"] })
        (Except.error { msg := "boom" })
        (Except.ok "summary")
        (Except.ok { deadlines := some ["d1", "d2", "d3"] })
        (Except.error { msg := "boom2" })
        (Except.ok "steps")
    ∧ (loadDashboardData (some profileAllNA) true
        (Except.ok { results := some ["a", "b", "c", "d"] })
        (Except.ok { totalEligibleAmount := 5, opportunities := [] })
        (Except.ok "summary")
        (Except.ok { deadlines := some ["d1", "d2", "d3"] })
        (Except.ok "us")
        (Except.ok "ns")).collegeMatches =
          takeMatches { results := some ["a", "b", "c", "d"] }
    ∧ (loadDashboardData (some profileAllNA) true
        (Except.ok { results := some ["a", "b", "c", "d"] })
        (Except.ok { totalEligibleAmount := 5, opportunities := [] })
        (Except.ok "summary")
        (Except.ok { deadlines := some ["d1", "d2", "d3"] })
        (Except.ok "us")
        (Except.ok "ns")).scholarshipStats =
          some { totalEligibleAmount := 5, opportunities := [] }
    ∧ (loadDashboardData (some profileAllNA) true
        (Except.ok { results := some ["a", "b", "c", "d"] })
        (Except.ok { totalEligibleAmount := 5, opportunities := [] })
        (Except.ok "summary")
        (Except.ok { deadlines := some ["d1", "d2", "d3"] })
        (Except.ok "us")
        (Except.ok "ns")).scholarshipSummary = some "summary"
    ∧ (loadDashboardData (some profileAllNA) true
        (Except.ok { results := some ["a", "b", "c", "d"] })
        (Except.ok { totalEligibleAmount := 5, opportunities := [] })
        (Except.ok "summary")
        (Except.ok { deadlines := some ["d1", "d2", "d3"] })
        (Except.ok "us")
        (Except.ok "ns")).upcomingDeadlines =
          takeDeadlines { deadlines := some ["d1", "d2", "d3"] }
    ∧ (loadDashboardData (some profileAllNA) true
        (Except.ok { results := some ["a", "b", "c", "d"] })
        (Except.ok { totalEligibleAmount := 5, opportunities := [] })
        (Except.ok "summary")
        (Except.ok { deadlines := some ["d1", "d2", "d3"] })
        (Except.ok "us")
        (Except.ok "ns")).userStats = some "us"
    ∧ (loadDashboardData (some profileAllNA) true
        (Except.ok { results := some ["a", "b", "c", "d"] })
        (Except.ok { totalEligibleAmount := 5, opportunities := [] })
        (Except.ok "summary")
        (Except.ok { deadlines := some ["d1", "d2", "d3"] })
        (Except.ok "us")
        (Except.ok "ns")).nextSteps = some "ns" :=
  ⟨(dashboard_isolation_amended profileAllNA true
      (Except.ok { results := some ["a", "b", "c", "d"] })
      (Except.error { msg := "boom" })
      (Except.ok "summary")
      (Except.ok { deadlines := some ["d1", "d2", "d3"] })
      (Except.error { msg := "boom2" })
      (Except.ok "steps")).1,
   (dashboard_isolation_amended profileAllNA true
      (Except.ok { results := some ["a", "b", "c", "d"] })
      (Except.ok { totalEligibleAmount := 5, opportunities := [] })
      (Except.ok "summary")
      (Except.ok { deadlines := some ["d1", "d2", "d3"] })
      (Except.ok "us")
      (Except.ok "ns")).2.1 { results := some ["a", "b", "c", "d"] } rfl,
   (dashboard_isolation_amended profileAllNA true
      (Except.ok { results := some ["a", "b", "c", "d"] })
      (Except.ok { totalEligibleAmount := 5, opportunities := [] })
      (Except.ok "summary")
      (Except.ok { deadlines := some ["d1", "d2", "d3"] })
      (Except.ok "us")
      (Except.ok "ns")).2.2.1
        { totalEligibleAmount := 5, opportunities := [] } rfl,
   (dashboard_isolation_amended profileAllNA true
      (Except.ok { results := some ["a", "b", "c", "d"] })
      (Except.ok { totalEligibleAmount := 5, opportunities := [] })
      (Except.ok "summary")
      (Except.ok { deadlines := some ["d1", "d2", "d3"] })
      (Except.ok "us")
      (Except.ok "ns")).2.2.2.1 "summary" rfl,
   (dashboard_isolation_amended profileAllNA true
      (Except.ok { results := some ["a", "b", "c", "d"] })
      (Except.ok { totalEligibleAmount := 5, opportunities := [] })
      (Except.ok "summary")
      (Except.ok { deadlines := some ["d1", "d2", "d3"] })
      (Except.ok "us")
      (Except.ok "ns")).2.2.2.2.1 { deadlines := some ["d1", "d2", "d3"] } rfl,
   (dashboard_isolation_amended profileAllNA true
      (Except.ok { results := some ["a", "b", "c", "d"] })
      (Except.ok { totalEligibleAmount := 5, opportunities := [] })
      (Except.ok "summary")
      (Except.ok { deadlines := some ["d1", "d2", "d3"] })
      (Except.ok "us")
      (Except.ok "ns")).2.2.2.2.2.1 "us" rfl rfl,
   (dashboard_isolation_amended profileAllNA true
      (Except.ok { results := some ["a", "b", "c", "d"] })
      (Except.ok { totalEligibleAmount := 5, opportunities := [] })
      (Except.ok "summary")
      (Except.ok { deadlines := some ["d1", "d2", "d3"] })
      (Except.ok "us")
      (Except.ok "ns")).2.2.2.2.2.2 "ns" rfl⟩
